import Mathlib

/-!
Verification of the query-construction, escaping, date-resolution and
response-shaping core of the posthog-context-capture repository
(src/mcp-server.ts, escaping-safe client designated authoritative by the
specification, section 9; src/client.ts is its superseded near-duplicate).

Modelling conventions:
* JavaScript strings are modelled as lists of characters (`Str`); string
  literals from the source appear as Lean string literals converted with
  `.data`.
* A JavaScript `Date` value is its time value: milliseconds since the epoch
  as an unbounded integer, with `Option Int` marking the Invalid Date (NaN)
  state as `none`.  ECMA-262 time values are clipped to |t| <= 8.64e15
  (`timeClip`); float rounding beyond 2^53 is not modelled (all values the
  clipped range admits are exactly representable).
* Host library behaviour (ECMA-262 Date internals, WHATWG fetch `ok`,
  `JSON.parse`) is modelled explicitly; `JSON.parse` and absolute date
  parsing (`new Date(string)`) are oracle parameters since their accepted
  inputs are host defined, with `none` standing for a parse failure
  (exception, or NaN time value respectively).
* Fallible code returns `Option`/`Except`; a thrown exception is `none`
  or `Except.error`.  Each transport operation additionally returns the
  list of HTTP query texts it issued, in order.
-/

/-- JavaScript strings, modelled as their character sequences. -/
abbrev Str := List Char

/-- The single quote character (code 39). -/
def quoteC : Char := Char.ofNat 39

/-- The NUL character (code 0). -/
def nulC : Char := Char.ofNat 0

/-- `String.prototype.replace` with a global single-character pattern:
every occurrence of `pat` is replaced by `rep`.  Each stage of
`escapeHogQLString` (src/mcp-server.ts lines 377-385) is one such call. -/
def replaceAllChar (pat : Char) (rep : Str) : Str → Str
  | [] => []
  | c :: rest => (if c = pat then rep else [c]) ++ replaceAllChar pat rep rest

/-- src/mcp-server.ts lines 377-385: `escapeHogQLString` applies six global
replacements in source order: backslash, single quote, NUL, newline,
carriage return, tab. -/
def escapeHogQLString (value : Str) : Str :=
  replaceAllChar '\t' ['\\', 't']
    (replaceAllChar '\r' ['\\', 'r']
      (replaceAllChar '\n' ['\\', 'n']
        (replaceAllChar nulC ['\\', '0']
          (replaceAllChar quoteC ['\\', quoteC]
            (replaceAllChar '\\' ['\\', '\\'] value)))))

/-- Per-character view of the composed escaping (proved equal to the
sequential replacements in `escapeHogQLString_cons`). -/
def escChar (c : Char) : Str :=
  if c = '\\' then ['\\', '\\']
  else if c = quoteC then ['\\', quoteC]
  else if c = nulC then ['\\', '0']
  else if c = '\n' then ['\\', 'n']
  else if c = '\r' then ['\\', 'r']
  else if c = '\t' then ['\\', 't']
  else [c]

/-- Decoder for a two-character escape sequence `\\x`, as a consumer of the
query literal would apply it (inverse of `escChar`). -/
def decodeEsc (c : Char) : Char :=
  if c = '0' then nulC
  else if c = 'n' then '\n'
  else if c = 'r' then '\r'
  else if c = 't' then '\t'
  else c

/-- Re-extraction of the original content from an escaped query literal:
a backslash consumes the following character as an escape sequence. -/
def unescapeList : Str → Str
  | [] => []
  | c :: rest =>
    if c = '\\' then
      match rest with
      | [] => []
      | d :: rest2 => decodeEsc d :: unescapeList rest2
    else c :: unescapeList rest

/-- Scans a query literal: `true` iff it contains a single quote that is
not consumed by a preceding backslash escape. -/
def hasUnescapedQuote : Str → Bool
  | [] => false
  | c :: rest =>
    if c = '\\' then
      match rest with
      | [] => false
      | _ :: rest2 => hasUnescapedQuote rest2
    else if c = quoteC then true else hasUnescapedQuote rest

/-- JSON values as produced by the host `JSON.parse` (number payloads are
irrelevant to the claims and modelled as integers). -/
inductive JsonVal where
  | null
  | bool (b : Bool)
  | num (q : Int)
  | str (s : Str)
  | arr (elems : List JsonVal)
  | obj (fields : List (Str × JsonVal))

/-- src/mcp-server.ts lines 505-515: `safeParseJson`.  The argument is the
outcome of the host `JSON.parse` (`none` = the parse threw).  Only a
non-null, non-array object is kept; everything else degrades to `{}`
(the empty field list). -/
def safeParseJson (parsed : Option JsonVal) : List (Str × JsonVal) :=
  match parsed with
  | some (JsonVal.obj fields) => fields
  | _ => []

/-! ### Host date library (ECMA-262 Date internals)

The proleptic-Gregorian conversions below model the host's date
arithmetic.  `cfd_*` decompose a day number into (year, month 1..12,
day-of-month); `daysFromCivil` is the inverse.  The algorithm is the
standard exact-integer-division civil calendar conversion. -/

/-- Era index (400-year block) of a day number (days since 1970-01-01). -/
def cfd_era (z : Int) : Int := (z + 719468) / 146097

/-- Day-of-era, in 0..146096. -/
def cfd_doe (z : Int) : Int := (z + 719468) % 146097

/-- Year-of-era (March-based), in 0..399. -/
def cfd_yoe (z : Int) : Int :=
  (cfd_doe z - cfd_doe z / 1460 + cfd_doe z / 36524 - cfd_doe z / 146096) / 365

/-- Day-of-year (March-based), in 0..365. -/
def cfd_doy (z : Int) : Int :=
  cfd_doe z - (365 * cfd_yoe z + cfd_yoe z / 4 - cfd_yoe z / 100)

/-- March-based month index, in 0..11 (0 = March). -/
def cfd_mp (z : Int) : Int := (5 * cfd_doy z + 2) / 153

/-- Day of month, in 1..31, of the civil date of day number `z`. -/
def cfd_d (z : Int) : Int := cfd_doy z - (153 * cfd_mp z + 2) / 5 + 1

/-- Civil month, in 1..12, of the civil date of day number `z`. -/
def cfd_m (z : Int) : Int := cfd_mp z + (if cfd_mp z < 10 then 3 else -9)

/-- Civil year of the civil date of day number `z`. -/
def cfd_y (z : Int) : Int :=
  cfd_yoe z + cfd_era z * 400 + (if cfd_m z ≤ 2 then 1 else 0)

/-- Year shifted to March-based counting. -/
def dfc_yy (y m : Int) : Int := y - (if m ≤ 2 then 1 else 0)

/-- Era of a civil (year, month). -/
def dfc_era (y m : Int) : Int := dfc_yy y m / 400

/-- Year-of-era of a civil (year, month). -/
def dfc_yoe (y m : Int) : Int := dfc_yy y m - dfc_era y m * 400

/-- March-based day-of-year of a civil (month, day). -/
def dfc_doy (m d : Int) : Int := (153 * (m + (if 2 < m then -3 else 9)) + 2) / 5 + d - 1

/-- Day-of-era of a civil date. -/
def dfc_doe (y m d : Int) : Int :=
  365 * dfc_yoe y m + dfc_yoe y m / 4 - dfc_yoe y m / 100 + dfc_doy m d

/-- Day number (days since 1970-01-01) of a civil date; inverse of the
`cfd_*` decomposition. -/
def daysFromCivil (y m d : Int) : Int := dfc_era y m * 146097 + dfc_doe y m d - 719468

/-- Day number of the first day of absolute month index `k`
(`k = 12 * year + monthIndex`). -/
def firstK (k : Int) : Int := daysFromCivil (k / 12) (k % 12 + 1) 1

/-- ECMA-262 MakeDay: day number of (year `y`, zero-based month `m`, day
`d`), with month overflow carried into the year and day overflow carried
into the following months. -/
def makeDay (y m d : Int) : Int := daysFromCivil (y + m / 12) (m % 12 + 1) 1 + d - 1

/-- ECMA-262 Day(t). -/
def jsDay (t : Int) : Int := t / 86400000

/-- ECMA-262 TimeWithinDay(t). -/
def jsTimeWithinDay (t : Int) : Int := t % 86400000

/-- ECMA-262 YearFromTime(t). -/
def jsYearFromTime (t : Int) : Int := cfd_y (jsDay t)

/-- ECMA-262 MonthFromTime(t), zero-based as `Date.prototype.getMonth`
returns it. -/
def jsMonthFromTime (t : Int) : Int := cfd_m (jsDay t) - 1

/-- ECMA-262 DateFromTime(t): the day of month. -/
def jsDateFromTime (t : Int) : Int := cfd_d (jsDay t)

/-- ECMA-262 TimeClip: time values are limited to |t| <= 8.64e15; outside
that, the Date becomes Invalid (`none`). -/
def timeClip (t : Int) : Option Int :=
  if t.natAbs ≤ 8640000000000000 then some t else none

/-- ECMA-262 `Date.prototype.setMonth(month)` on a valid date `t`:
MakeDay with the new month, same day of month and time of day, then
TimeClip. -/
def jsSetMonth (t month : Int) : Option Int :=
  timeClip (makeDay (jsYearFromTime t) month (jsDateFromTime t) * 86400000 + jsTimeWithinDay t)

/-- Value of a decimal digit string (`parseInt(s, 10)` on the `\d+` capture
of the relative-date pattern). -/
def digitsToNat (cs : Str) : Nat :=
  cs.foldl (fun acc c => 10 * acc + (c.toNat - 48)) 0

/-- The regular expression match of src/mcp-server.ts line 389:
`dateString.match(/^(\d+)([dhwm])$/)`, returning the parsed amount and the
unit character on success. -/
def matchRelative (s : Str) : Option (Nat × Char) :=
  match s.reverse with
  | [] => none
  | u :: revDigits =>
    if (u = 'd' ∨ u = 'h' ∨ u = 'w' ∨ u = 'm') ∧ revDigits ≠ [] ∧
        revDigits.all (fun c => c.isDigit) then
      some (digitsToNat revDigits.reverse, u)
    else none

/-- src/mcp-server.ts lines 387-413: `parseRelativeDate`.  `absParse` is
the host's absolute date parser (`new Date(string)`, `none` = Invalid
Date); `now` is the wall-clock time value at call time.  A relative
expression subtracts whole hours, days or weeks from `now` via
`getTime()` arithmetic, or whole calendar months via `setMonth`. -/
def parseRelativeDate (absParse : Str → Option Int) (now : Int) (dateString : Str) :
    Option Int :=
  match matchRelative dateString with
  | none => absParse dateString
  | some (amount, unit) =>
    if unit = 'h' then timeClip (now - (amount : Int) * 3600000)
    else if unit = 'd' then timeClip (now - (amount : Int) * 86400000)
    else if unit = 'w' then timeClip (now - (amount : Int) * 604800000)
    else if unit = 'm' then jsSetMonth now (jsMonthFromTime now - (amount : Int))
    else some now

/-- Decimal rendering of `n`, left-padded with zeros to width `w`. -/
def natPad (w n : Nat) : Str :=
  List.replicate (w - (toString n).length) '0' ++ (toString n).data

/-- ECMA-262 year rendering in `Date.prototype.toISOString`: four digits
in 0..9999, otherwise a sign and six digits. -/
def isoYearStr (y : Int) : Str :=
  if 0 ≤ y ∧ y ≤ 9999 then natPad 4 y.toNat
  else if y < 0 then ("-").data ++ natPad 6 (-y).toNat
  else ("+").data ++ natPad 6 y.toNat

/-- ECMA-262 `Date.prototype.toISOString` on a valid time value:
`YYYY-MM-DDTHH:mm:ss.sssZ` in UTC. -/
def toISOString (t : Int) : Str :=
  isoYearStr (cfd_y (jsDay t)) ++ ("-").data ++ natPad 2 (cfd_m (jsDay t)).toNat
    ++ ("-").data ++ natPad 2 (cfd_d (jsDay t)).toNat
    ++ ("T").data ++ natPad 2 (jsTimeWithinDay t / 3600000).toNat
    ++ (":").data ++ natPad 2 (jsTimeWithinDay t / 60000 % 60).toNat
    ++ (":").data ++ natPad 2 (jsTimeWithinDay t / 1000 % 60).toNat
    ++ (".").data ++ natPad 3 (jsTimeWithinDay t % 1000).toNat ++ ("Z").data

/-- `String.prototype.replace` with a single-character string pattern:
only the first occurrence is replaced. -/
def replaceFirst (pat : Char) (rep : Str) : Str → Str
  | [] => []
  | c :: rest => if c = pat then rep ++ rest else c :: replaceFirst pat rep rest

/-- The formatted timestamp literal for a valid time value:
`toISOString` with the single `T` turned into a space and the single `Z`
removed. -/
def hogFmtStr (t : Int) : Str :=
  replaceFirst 'Z' [] (replaceFirst 'T' [' '] (toISOString t))

/-- src/mcp-server.ts lines 415-417: `formatDateForHogQL`.  On an Invalid
Date (`none`) the underlying `toISOString` throws a RangeError, modelled
as `none`. -/
def formatDateForHogQL (date : Option Int) : Option Str :=
  match date with
  | none => none
  | some t => some (hogFmtStr t)

/-- `Array.prototype.join(sep)`. -/
def joinSep (sep : Str) : List Str → Str
  | [] => []
  | [x] => x
  | x :: xs => x ++ sep ++ joinSep sep xs

/-- src/mcp-server.ts lines 419-437: `buildTimestampClause`.  `fromOpt` and
`toOpt` model `options.from` / `options.to` (`none` = absent or null); a
clause is pushed only for a truthy (non-empty) string.  `none` overall
models the RangeError thrown while formatting an Invalid Date. -/
def buildTimestampClause (absParse : Str → Option Int) (now : Int)
    (fromOpt toOpt : Option Str) : Option Str :=
  let fromClauses : Option (List Str) :=
    match fromOpt with
    | some s =>
      if s = [] then some []
      else
        match formatDateForHogQL (parseRelativeDate absParse now s) with
        | none => none
        | some f => some [("timestamp >= '").data ++ f ++ ("'").data]
    | none => some []
  match fromClauses with
  | none => none
  | some cs1 =>
    let toClauses : Option (List Str) :=
      match toOpt with
      | some s =>
        if s = [] then some []
        else
          match formatDateForHogQL (parseRelativeDate absParse now s) with
          | none => none
          | some f => some [("timestamp <= '").data ++ f ++ ("'").data]
      | none => some []
    match toClauses with
    | none => none
    | some cs2 =>
      let clauses := cs1 ++ cs2
      some (if clauses = [] then [] else (" AND ").data ++ joinSep ((" AND ").data) clauses)

/-- src/mcp-server.ts lines 567-569: the optional event-type equality
filter of `getPersonEvents` (empty string is falsy: no clause). -/
def eventTypeClause (eventType : Option Str) : Str :=
  match eventType with
  | some s =>
    if s = [] then []
    else (" AND event = '").data ++ escapeHogQLString s ++ ("'").data
  | none => []

/-- The query template of `getPersonByEmail` (src/mcp-server.ts lines
485-490), with the escaped email interpolated. -/
def personByEmailQuery (email : Str) : Str :=
  ("\n      SELECT id, properties\n      FROM persons\n      WHERE properties.email = '").data
    ++ escapeHogQLString email ++ ("'\n      LIMIT 1\n    ").data

/-- The query template of `getPersonsByEvent` (src/mcp-server.ts lines
532-538). -/
def personsByEventQuery (eventName : Str) (tsClause : Str) (effectiveLimit : Int) : Str :=
  ("\n      SELECT DISTINCT person.id, person.properties\n      FROM events\n      WHERE event = '").data
    ++ escapeHogQLString eventName ++ ("'").data ++ tsClause
    ++ ("\n      ORDER BY timestamp DESC\n      LIMIT ").data
    ++ (toString effectiveLimit).data ++ ("\n    ").data

/-- The query template of `getPersonEvents` (src/mcp-server.ts lines
572-578). -/
def personEventsQueryText (personId : Str) (etClause tsClause : Str)
    (effectiveLimit : Int) : Str :=
  ("\n      SELECT event, timestamp, properties\n      FROM events\n      WHERE person_id = '").data
    ++ escapeHogQLString personId ++ ("'").data ++ etClause ++ tsClause
    ++ ("\n      ORDER BY timestamp DESC\n      LIMIT ").data
    ++ (toString effectiveLimit).data ++ ("\n    ").data

/-- src/types.ts: the remote API's tabular response envelope. -/
structure HogQLQueryResult (ρ : Type) where
  columns : List Str
  types : List Str
  results : List ρ
  hasMore : Bool
  limit : Int
  offset : Int

/-- One HTTP exchange as seen by `executeQuery`: the response status, its
body text (read on failure) and its decoded JSON body (read on success).
The remote is an oracle `Str → HttpReply ρ` from query text to reply. -/
structure HttpReply (ρ : Type) where
  status : Nat
  bodyText : Str
  result : HogQLQueryResult ρ

/-- WHATWG fetch `Response.ok`: status in 200..299. -/
def fetchOkStatus (status : Nat) : Bool := decide (200 ≤ status) && decide (status ≤ 299)

/-- The error message of src/mcp-server.ts line 467. -/
def apiErrorMsg (status : Nat) (bodyText : Str) : Str :=
  ("PostHog API error (").data ++ (toString status).data ++ ("): ").data ++ bodyText

/-- The message of the RangeError thrown by `toISOString` on an Invalid
Date. -/
def rangeErrorMsg : Str := ("RangeError: Invalid time value").data

/-- src/mcp-server.ts lines 446-477: `executeQuery`.  Issues exactly one
request; a non-ok status throws the API error; an ok status returns the
decoded result.  The second component is the list of issued query texts. -/
def executeQuery {ρ : Type} (remote : Str → HttpReply ρ) (query : Str) :
    Except Str (HogQLQueryResult ρ) × List Str :=
  let response := remote query
  if fetchOkStatus response.status then (Except.ok response.result, [query])
  else (Except.error (apiErrorMsg response.status response.bodyText), [query])


/-- A canned reply for instantiating the remote oracle in concrete
checks. -/
def cannedReply (ρ : Type) (status : Nat) (rows : List ρ) : HttpReply ρ :=
  { status := status
    bodyText := ("oops").data
    result :=
      { columns := []
        types := []
        results := rows
        hasMore := false
        limit := 0
        offset := 0 } }

/-- src/types.ts `Person`. -/
structure Person where
  id : Str
  distinctIds : List Str
  properties : List (Str × JsonVal)

/-- src/types.ts `PostHogEvent`. -/
structure PostHogEvent where
  event : Str
  timestamp : Str
  properties : List (Str × JsonVal)

/-- src/types.ts `PersonWithEvents`. -/
structure PersonWithEvents where
  person : Person
  events : List PostHogEvent

/-- src/mcp-server.ts lines 479-503: `getPersonByEmail`.  `jparse` is the
host `JSON.parse` oracle (`none` = the parse threw). -/
def getPersonByEmail (remote : Str → HttpReply (Str × Str))
    (jparse : Str → Option JsonVal) (email : Str) :
    Except Str (Option Person) × List Str :=
  let query := personByEmailQuery email
  let step := executeQuery remote query
  match step.1 with
  | Except.error e => (Except.error e, step.2)
  | Except.ok r =>
    match r.results with
    | [] => (Except.ok none, step.2)
    | (pid, propertiesJson) :: _ =>
      (Except.ok (some
        { id := pid
          distinctIds := []
          properties := safeParseJson (jparse propertiesJson) }), step.2)

/-- src/mcp-server.ts lines 517-549: `getPersonsByEvent`. -/
def getPersonsByEvent (remote : Str → HttpReply (Str × Str))
    (jparse : Str → Option JsonVal) (absParse : Str → Option Int) (now : Int)
    (eventName : Str) (limit : Option Int) (fromOpt toOpt : Option Str) :
    Except Str (List Person) × List Str :=
  match buildTimestampClause absParse now fromOpt toOpt with
  | none => (Except.error rangeErrorMsg, [])
  | some tsClause =>
    let query := personsByEventQuery eventName tsClause (limit.getD 10)
    let step := executeQuery remote query
    match step.1 with
    | Except.error e => (Except.error e, step.2)
    | Except.ok r =>
      (Except.ok (r.results.map (fun row =>
        { id := row.1
          distinctIds := []
          properties := safeParseJson (jparse row.2) })), step.2)

/-- src/mcp-server.ts lines 551-589: `getPersonEvents`.  `from` defaults
to "30d" via nullish coalescing when absent or null. -/
def getPersonEvents (remote : Str → HttpReply (Str × Str × Str))
    (jparse : Str → Option JsonVal) (absParse : Str → Option Int) (now : Int)
    (personId : Str) (limit : Option Int) (eventType : Option Str)
    (fromOpt toOpt : Option Str) :
    Except Str (List PostHogEvent) × List Str :=
  let effectiveFrom := fromOpt.getD (("30d").data)
  match buildTimestampClause absParse now (some effectiveFrom) toOpt with
  | none => (Except.error rangeErrorMsg, [])
  | some tsClause =>
    let query := personEventsQueryText personId (eventTypeClause eventType) tsClause
      (limit.getD 50)
    let step := executeQuery remote query
    match step.1 with
    | Except.error e => (Except.error e, step.2)
    | Except.ok r =>
      (Except.ok (r.results.map (fun row =>
        { event := row.1
          timestamp := row.2.1
          properties := safeParseJson (jparse row.2.2) })), step.2)

/-- src/mcp-server.ts lines 591-619: `getPersonWithEvents`: email lookup,
short-circuit on absent person, then the events lookup with the found
person's id. -/
def getPersonWithEvents (remoteP : Str → HttpReply (Str × Str))
    (remoteE : Str → HttpReply (Str × Str × Str))
    (jparse : Str → Option JsonVal) (absParse : Str → Option Int) (now : Int)
    (email : Str) (eventsLimit : Option Int) (eventType : Option Str)
    (fromOpt toOpt : Option Str) :
    Except Str (Option PersonWithEvents) × List Str :=
  let step := getPersonByEmail remoteP jparse email
  match step.1 with
  | Except.error e => (Except.error e, step.2)
  | Except.ok none => (Except.ok none, step.2)
  | Except.ok (some person) =>
    let estep := getPersonEvents remoteE jparse absParse now person.id eventsLimit
      eventType fromOpt toOpt
    match estep.1 with
    | Except.error e => (Except.error e, step.2 ++ estep.2)
    | Except.ok events =>
      (Except.ok (some { person := person, events := events }), step.2 ++ estep.2)

/-! ### Helper lemmas: civil calendar arithmetic -/

set_option maxHeartbeats 8000000

/-- Year-of-era extraction: within an era, the algebraic year-of-era
formula lands in 0..399 and brackets the day-of-era between the year start
`365 * Y + Y / 4 - Y / 100` and at most 365 days beyond it. -/
theorem yoeAux (D Y : Int) (d1 : 0 ≤ D) (d2 : D ≤ 146096)
    (hY : Y = (D - D / 1460 + D / 36524 - D / 146096) / 365) :
    0 ≤ Y ∧ Y ≤ 399 ∧ 365 * Y + Y / 4 - Y / 100 ≤ D ∧
      D - (365 * Y + Y / 4 - Y / 100) ≤ 365 := by
  have hj0 : 0 ≤ D / 1460 := by omega
  have hj1 : D / 1460 ≤ 100 := by omega
  have hk0 : 0 ≤ D / 36524 := by omega
  have hk1 : D / 36524 ≤ 4 := by omega
  set j := D / 1460 with hj
  clear_value j
  set k := D / 36524 with hk
  clear_value k
  interval_cases j <;> first
  | omega
  | (interval_cases k <;> omega)

/-- Month extraction: for a day-of-year in 0..365, the month index lands in
0..11 and its cumulative-days table brackets the day-of-year. -/
theorem mpAux (DY MP : Int) (d1 : 0 ≤ DY) (d2 : DY ≤ 365)
    (hMP : MP = (5 * DY + 2) / 153) :
    0 ≤ MP ∧ MP ≤ 11 ∧ (153 * MP + 2) / 5 ≤ DY ∧
      DY - (153 * MP + 2) / 5 ≤ 30 := by
  omega

/-- The `cfd_*` decomposition of a day number is a valid civil date and
`daysFromCivil` inverts it. -/
theorem cfd_valid (z : Int) :
    1 ≤ cfd_m z ∧ cfd_m z ≤ 12 ∧ 1 ≤ cfd_d z ∧ cfd_d z ≤ 31 ∧
      daysFromCivil (cfd_y z) (cfd_m z) (cfd_d z) = z := by
  have h0 : 0 ≤ cfd_doe z ∧ cfd_doe z ≤ 146096 ∧
      cfd_era z * 146097 + cfd_doe z = z + 719468 := by
    unfold cfd_doe cfd_era; omega
  have h1 := yoeAux (cfd_doe z) (cfd_yoe z) h0.1 h0.2.1 rfl
  have h2 : cfd_doy z = cfd_doe z - (365 * cfd_yoe z + cfd_yoe z / 4 - cfd_yoe z / 100) ∧
      0 ≤ cfd_doy z ∧ cfd_doy z ≤ 365 := by
    refine ⟨rfl, ?_, ?_⟩ <;> (unfold cfd_doy; omega)
  have h3 := mpAux (cfd_doy z) (cfd_mp z) h2.2.1 h2.2.2 rfl
  have e1 : (cfd_yoe z + cfd_era z * 400) / 400 = cfd_era z := by omega
  simp only [daysFromCivil, dfc_era, dfc_doe, dfc_yoe, dfc_yy, dfc_doy, cfd_y, cfd_m, cfd_d]
  split_ifs <;>
    (try simp only [add_zero, sub_zero, add_sub_cancel_right, add_neg_cancel_right,
      neg_add_cancel_right]) <;>
    (try rw [e1]) <;>
    (try simp only [add_sub_cancel_right]) <;>
    omega

/-- The day number of the first of a month never decreases as the absolute
month index increases by one. -/
theorem firstK_step (k : Int) : firstK k ≤ firstK (k + 1) := by
  simp only [firstK, daysFromCivil, dfc_era, dfc_doe, dfc_yoe, dfc_yy, dfc_doy]
  split_ifs <;> omega

/-- Monotonicity of the first-of-month day number in the absolute month
index. -/
theorem firstK_mono (a b : Int) (hab : a ≤ b) : firstK a ≤ firstK b := by
  obtain ⟨n, rfl⟩ : ∃ n : Nat, b = a + n := ⟨(b - a).toNat, by omega⟩
  clear hab
  induction n with
  | zero => simp
  | succ k ih =>
    have e : a + ((k + 1 : Nat) : Int) = a + (k : Int) + 1 := by push_cast; ring
    rw [e]
    exact ih.trans (firstK_step (a + (k : Int)))

/-- `makeDay` through the absolute month index. -/
theorem makeDay_eq (y m d : Int) : makeDay y m d = firstK (12 * y + m) + d - 1 := by
  unfold makeDay firstK
  have h1 : (12 * y + m) / 12 = y + m / 12 := by omega
  have h2 : (12 * y + m) % 12 = m % 12 := by omega
  rw [h1, h2]

/-- Subtracting months through `makeDay` never moves the day number
forward. -/
theorem makeDay_mono_month (y m d : Int) (n : Nat) : makeDay y (m - n) d ≤ makeDay y m d := by
  rw [makeDay_eq, makeDay_eq]
  have h := firstK_mono (12 * y + (m - n)) (12 * y + m) (by omega)
  omega

/-- `daysFromCivil` is affine in the day argument. -/
theorem daysFromCivil_d (yy mm dd : Int) :
    daysFromCivil yy mm dd = daysFromCivil yy mm 1 + dd - 1 := by
  simp only [daysFromCivil, dfc_era, dfc_doe, dfc_yoe, dfc_yy, dfc_doy]
  split_ifs <;> omega

/-- `makeDay` inverts the `cfd_*` decomposition (zero-based month). -/
theorem makeDay_cfd (z : Int) : makeDay (cfd_y z) (cfd_m z - 1) (cfd_d z) = z := by
  have h := cfd_valid z
  unfold makeDay
  have h1 : (cfd_m z - 1) / 12 = 0 := by omega
  have h2 : (cfd_m z - 1) % 12 = cfd_m z - 1 := by omega
  rw [h1, h2]
  have h3 := daysFromCivil_d (cfd_y z) (cfd_m z) (cfd_d z)
  have h4 : cfd_m z - 1 + 1 = cfd_m z := by ring
  rw [h4]
  have h5 : cfd_y z + 0 = cfd_y z := by ring
  rw [h5]
  omega

/-- `setMonth` with a month index lowered by `n` months never yields a
later time value than the original. -/
theorem jsSetMonth_sub_le (t : Int) (n : Nat) (r : Int)
    (h : jsSetMonth t (jsMonthFromTime t - n) = some r) : r ≤ t := by
  unfold jsSetMonth timeClip at h
  split at h
  case isTrue =>
    have hr : makeDay (jsYearFromTime t) (jsMonthFromTime t - n) (jsDateFromTime t) * 86400000 +
        jsTimeWithinDay t = r := by
      injection h
    have hm := makeDay_mono_month (jsYearFromTime t) (jsMonthFromTime t) (jsDateFromTime t) n
    have hrt : makeDay (jsYearFromTime t) (jsMonthFromTime t) (jsDateFromTime t) = jsDay t := by
      unfold jsYearFromTime jsMonthFromTime jsDateFromTime
      exact makeDay_cfd (jsDay t)
    have ht : t = jsDay t * 86400000 + jsTimeWithinDay t ∧ 0 ≤ jsTimeWithinDay t := by
      unfold jsDay jsTimeWithinDay; omega
    omega
  case isFalse => exact absurd h (by simp)

set_option maxHeartbeats 400000

/-! ### Helper lemmas: escaping -/

theorem replaceAllChar_append (pat : Char) (rep : Str) (xs ys : Str) :
    replaceAllChar pat rep (xs ++ ys) =
      replaceAllChar pat rep xs ++ replaceAllChar pat rep ys := by
  induction xs with
  | nil => simp [replaceAllChar]
  | cons c rest ih => simp [replaceAllChar, ih]

theorem escape_append (xs ys : Str) :
    escapeHogQLString (xs ++ ys) = escapeHogQLString xs ++ escapeHogQLString ys := by
  simp only [escapeHogQLString, replaceAllChar_append]

theorem escChar_bs : escChar '\\' = ['\\', '\\'] := by decide

theorem escChar_q : escChar quoteC = ['\\', quoteC] := by decide

theorem escChar_nul : escChar nulC = ['\\', '0'] := by decide

theorem escChar_nl : escChar '\n' = ['\\', 'n'] := by decide

theorem escChar_cr : escChar '\r' = ['\\', 'r'] := by decide

theorem escChar_tab : escChar '\t' = ['\\', 't'] := by decide

theorem decodeEsc_bs : decodeEsc '\\' = '\\' := by decide

theorem decodeEsc_q : decodeEsc quoteC = quoteC := by decide

theorem decodeEsc_zero : decodeEsc '0' = nulC := by decide

theorem decodeEsc_n : decodeEsc 'n' = '\n' := by decide

theorem decodeEsc_r : decodeEsc 'r' = '\r' := by decide

theorem decodeEsc_t : decodeEsc 't' = '\t' := by decide

theorem escape_single (c : Char) : escapeHogQLString [c] = escChar c := by
  by_cases h1 : c = '\\'
  · subst h1; decide
  by_cases h2 : c = quoteC
  · subst h2; decide
  by_cases h3 : c = nulC
  · subst h3; decide
  by_cases h4 : c = '\n'
  · subst h4; decide
  by_cases h5 : c = '\r'
  · subst h5; decide
  by_cases h6 : c = '\t'
  · subst h6; decide
  simp [escapeHogQLString, replaceAllChar, escChar, h1, h2, h3, h4, h5, h6]

theorem escape_cons (c : Char) (s : Str) :
    escapeHogQLString (c :: s) = escChar c ++ escapeHogQLString s := by
  have h : c :: s = [c] ++ s := rfl
  rw [h, escape_append, escape_single]

theorem unescape_escape (s : Str) : unescapeList (escapeHogQLString s) = s := by
  induction s with
  | nil => rfl
  | cons c rest ih =>
    rw [escape_cons]
    by_cases h1 : c = '\\'
    · subst h1; rw [escChar_bs]; simp [unescapeList, decodeEsc_bs, ih]
    by_cases h2 : c = quoteC
    · subst h2; rw [escChar_q]; simp [unescapeList, decodeEsc_q, ih]
    by_cases h3 : c = nulC
    · subst h3; rw [escChar_nul]; simp [unescapeList, decodeEsc_zero, ih]
    by_cases h4 : c = '\n'
    · subst h4; rw [escChar_nl]; simp [unescapeList, decodeEsc_n, ih]
    by_cases h5 : c = '\r'
    · subst h5; rw [escChar_cr]; simp [unescapeList, decodeEsc_r, ih]
    by_cases h6 : c = '\t'
    · subst h6; rw [escChar_tab]; simp [unescapeList, decodeEsc_t, ih]
    simp only [escChar, h1, h2, h3, h4, h5, h6, if_false]
    rw [List.singleton_append, unescapeList.eq_def]
    simp [h1, ih]

theorem noQuote_escape (s : Str) : hasUnescapedQuote (escapeHogQLString s) = false := by
  induction s with
  | nil => rfl
  | cons c rest ih =>
    rw [escape_cons]
    by_cases h1 : c = '\\'
    · subst h1; rw [escChar_bs]; simp [hasUnescapedQuote, ih]
    by_cases h2 : c = quoteC
    · subst h2; rw [escChar_q]; simp [hasUnescapedQuote, ih]
    by_cases h3 : c = nulC
    · subst h3; rw [escChar_nul]; simp [hasUnescapedQuote, ih]
    by_cases h4 : c = '\n'
    · subst h4; rw [escChar_nl]; simp [hasUnescapedQuote, ih]
    by_cases h5 : c = '\r'
    · subst h5; rw [escChar_cr]; simp [hasUnescapedQuote, ih]
    by_cases h6 : c = '\t'
    · subst h6; rw [escChar_tab]; simp [hasUnescapedQuote, ih]
    simp only [escChar, h1, h2, h3, h4, h5, h6, if_false]
    rw [List.singleton_append, hasUnescapedQuote.eq_def]
    simp [h1, h2, ih]

/-- C1: every free-form input (email, event name, person id, event type)
interpolated into a query by getPersonByEmail, getPersonsByEvent or
getPersonEvents goes through `escapeHogQLString`, and that escaping is
exactly the six single-character replacements in source order: backslash
first, then single quote, NUL, newline, carriage return, tab. -/
theorem c1_escaping_applied_in_order :
    (∀ s : Str, escapeHogQLString s =
      replaceAllChar '\t' ['\\', 't']
        (replaceAllChar '\r' ['\\', 'r']
          (replaceAllChar '\n' ['\\', 'n']
            (replaceAllChar nulC ['\\', '0']
              (replaceAllChar quoteC ['\\', quoteC]
                (replaceAllChar '\\' ['\\', '\\'] s)))))) ∧
    (∀ email : Str, personByEmailQuery email =
      ("\n      SELECT id, properties\n      FROM persons\n      WHERE properties.email = '").data
        ++ escapeHogQLString email ++ ("'\n      LIMIT 1\n    ").data) ∧
    (∀ (eventName tsClause : Str) (lim : Int), personsByEventQuery eventName tsClause lim =
      ("\n      SELECT DISTINCT person.id, person.properties\n      FROM events\n      WHERE event = '").data
        ++ escapeHogQLString eventName ++ ("'").data ++ tsClause
        ++ ("\n      ORDER BY timestamp DESC\n      LIMIT ").data
        ++ (toString lim).data ++ ("\n    ").data) ∧
    (∀ (personId etClause tsClause : Str) (lim : Int),
      personEventsQueryText personId etClause tsClause lim =
        ("\n      SELECT event, timestamp, properties\n      FROM events\n      WHERE person_id = '").data
          ++ escapeHogQLString personId ++ ("'").data ++ etClause ++ tsClause
          ++ ("\n      ORDER BY timestamp DESC\n      LIMIT ").data
          ++ (toString lim).data ++ ("\n    ").data) ∧
    (∀ et : Str, eventTypeClause (some et) =
      if et = [] then [] else (" AND event = '").data ++ escapeHogQLString et ++ ("'").data) :=
  ⟨fun _ => rfl, fun _ => rfl, fun _ _ _ => rfl, fun _ _ _ _ => rfl, fun _ => rfl⟩

/-- C2: un-escaping the escaped form of any string recovers the string (so
escaping is injective), and the escaped form contains no unescaped single
quote, so no quote from an input value can terminate the query literal. -/
theorem c2_escape_roundtrip (s : Str) :
    unescapeList (escapeHogQLString s) = s ∧
    hasUnescapedQuote (escapeHogQLString s) = false ∧
    (∀ t : Str, escapeHogQLString s = escapeHogQLString t → s = t) := by
  refine ⟨unescape_escape s, noQuote_escape s, ?_⟩
  intro t h
  rw [← unescape_escape s, h, unescape_escape]

/-- Witness for C2 at a concrete string containing a quote, a backslash
and a newline. -/
theorem c2_escape_roundtrip_witness :
    unescapeList (escapeHogQLString (("a'b\\c\n").data)) = ("a'b\\c\n").data ∧
    hasUnescapedQuote (escapeHogQLString (("a'b\\c\n").data)) = false ∧
    ("a'b\\c\n").data = ("a'b\\c\n").data :=
  ⟨(c2_escape_roundtrip _).1, (c2_escape_roundtrip _).2.1,
    (c2_escape_roundtrip _).2.2 _ rfl⟩

/-- Helper: a successful match of the relative-date pattern always yields
one of the four unit characters. -/
theorem matchRelative_unit (ds : Str) (n : Nat) (u : Char)
    (h : matchRelative ds = some (n, u)) : u = 'd' ∨ u = 'h' ∨ u = 'w' ∨ u = 'm' := by
  unfold matchRelative at h
  split at h
  next => exact absurd h (by simp)
  next u0 rev =>
    split at h
    next hcond =>
      simp only [Option.some.injEq, Prod.mk.injEq] at h
      rcases h with ⟨-, h2⟩
      rw [← h2]
      exact hcond.1
    next => exact absurd h (by simp)

/-- Helper: a value surviving `timeClip` is the value itself. -/
theorem timeClip_some (t r : Int) (h : timeClip t = some r) : r = t := by
  unfold timeClip at h
  split at h
  · exact (Option.some.inj h).symm
  · exact absurd h (by simp)

/-- C4: a date expression matching `<integer><unit>` resolves to `now`
minus that many hours, days or weeks (exact millisecond arithmetic), or
that many calendar months (host `setMonth` semantics with day-of-month
overflow), and any resolved value is at most `now`. -/
theorem c4_relative_dates (absParse : Str → Option Int) (now : Int) (ds : Str)
    (amount : Nat) (unit : Char) (h : matchRelative ds = some (amount, unit)) :
    parseRelativeDate absParse now ds =
      (if unit = 'h' then timeClip (now - (amount : Int) * 3600000)
       else if unit = 'd' then timeClip (now - (amount : Int) * 86400000)
       else if unit = 'w' then timeClip (now - (amount : Int) * 604800000)
       else jsSetMonth now (jsMonthFromTime now - (amount : Int))) ∧
    (∀ r : Int, parseRelativeDate absParse now ds = some r → r ≤ now) := by
  have hu := matchRelative_unit ds amount unit h
  have hdef : parseRelativeDate absParse now ds =
      (if unit = 'h' then timeClip (now - (amount : Int) * 3600000)
       else if unit = 'd' then timeClip (now - (amount : Int) * 86400000)
       else if unit = 'w' then timeClip (now - (amount : Int) * 604800000)
       else if unit = 'm' then jsSetMonth now (jsMonthFromTime now - (amount : Int))
       else some now) := by
    unfold parseRelativeDate
    rw [h]
  constructor
  · rw [hdef]
    rcases hu with h' | h' | h' | h' <;> subst h' <;> simp
  · intro r hr
    rw [hdef] at hr
    rcases hu with h' | h' | h' | h' <;> subst h' <;> simp at hr
    · have := timeClip_some _ _ hr
      omega
    · have := timeClip_some _ _ hr
      omega
    · have := timeClip_some _ _ hr
      omega
    · exact jsSetMonth_sub_le now amount r hr

/-- Witness for C4 at the expression "7d" and a concrete clock value. -/
theorem c4_relative_dates_witness :
    matchRelative (("7d").data) = some (7, 'd') ∧
    (∀ r : Int, parseRelativeDate (fun _ => none) 1700000000000 (("7d").data) = some r →
      r ≤ 1700000000000) :=
  ⟨by decide, (c4_relative_dates (fun _ => none) 1700000000000 (("7d").data) 7 'd' (by decide)).2⟩

/-- C5 counterexample: with `from` set to an unparseable absolute date
string (host parse yields Invalid Date), `getPersonEvents` does not send
any query carrying an invalid-date literal: formatting the sentinel
raises a RangeError, the operation fails and no request is issued at
all. -/
theorem c5_invalid_date_counterexample :
    getPersonEvents (fun _ => cannedReply (Str × Str × Str) 200 []) (fun _ => none)
      (fun _ => none) 0 (("p1").data) none none (some (("garbage").data)) none =
      (Except.error rangeErrorMsg, []) := by
  rfl

/-- C5 (amended): for input not matching the relative pattern the resolver
itself never raises and returns the host parser's result (the Invalid Date
sentinel for unparseable strings); but when that sentinel is formatted for
the query, the RangeError makes the timestamp-clause construction (and so
the request) fail instead of sending an invalid-date literal. -/
theorem c5_absolute_passthrough (absParse : Str → Option Int) (now : Int) (ds : Str)
    (h : matchRelative ds = none) :
    parseRelativeDate absParse now ds = absParse ds ∧
    (absParse ds = none → ds ≠ [] →
      buildTimestampClause absParse now (some ds) none = none) := by
  have h1 : parseRelativeDate absParse now ds = absParse ds := by
    unfold parseRelativeDate
    rw [h]
  refine ⟨h1, fun hnone hne => ?_⟩
  simp [buildTimestampClause, hne, h1, hnone, formatDateForHogQL]

/-- Witness for C5 (amended) at the unparseable string "garbage". -/
theorem c5_absolute_passthrough_witness :
    matchRelative (("garbage").data) = none ∧
    parseRelativeDate (fun _ => none) 0 (("garbage").data) = none ∧
    buildTimestampClause (fun _ => none) 0 (some (("garbage").data)) none = none := by
  have h := c5_absolute_passthrough (fun _ => none) 0 (("garbage").data) (by decide)
  exact ⟨by decide, h.1, h.2 rfl (by decide)⟩

/-- C3: a properties payload whose host JSON parse fails or yields a
non-object (array, primitive, null) maps to the empty properties mapping,
and each of the three row-mapping lookups still succeeds on such a row. -/
theorem c3_malformed_json_degrades (jparse : Str → Option JsonVal) (pj : Str)
    (h : ∀ fields, jparse pj ≠ some (JsonVal.obj fields)) :
    safeParseJson (jparse pj) = [] ∧
    (∀ (remote : Str → HttpReply (Str × Str)) (email pid : Str) (rest : List (Str × Str)),
      fetchOkStatus (remote (personByEmailQuery email)).status = true →
      (remote (personByEmailQuery email)).result.results = (pid, pj) :: rest →
      (getPersonByEmail remote jparse email).1 =
        Except.ok (some { id := pid, distinctIds := [], properties := [] })) ∧
    (∀ (remote : Str → HttpReply (Str × Str)) (absParse : Str → Option Int) (now : Int)
      (en : Str) (lim : Option Int) (fr toOpt : Option Str) (tsC pid : Str)
      (rest : List (Str × Str)),
      buildTimestampClause absParse now fr toOpt = some tsC →
      fetchOkStatus (remote (personsByEventQuery en tsC (lim.getD 10))).status = true →
      (remote (personsByEventQuery en tsC (lim.getD 10))).result.results = (pid, pj) :: rest →
      (getPersonsByEvent remote jparse absParse now en lim fr toOpt).1 =
        Except.ok ({ id := pid, distinctIds := [], properties := [] } ::
          rest.map (fun row => { id := row.1, distinctIds := [], properties := safeParseJson (jparse row.2) }))) ∧
    (∀ (remote : Str → HttpReply (Str × Str × Str)) (absParse : Str → Option Int) (now : Int)
      (pid2 : Str) (lim : Option Int) (et fr toOpt : Option Str) (tsC ev ts : Str)
      (rest : List (Str × Str × Str)),
      buildTimestampClause absParse now (some (fr.getD (("30d").data))) toOpt = some tsC →
      fetchOkStatus
        (remote (personEventsQueryText pid2 (eventTypeClause et) tsC (lim.getD 50))).status =
        true →
      (remote (personEventsQueryText pid2 (eventTypeClause et) tsC
        (lim.getD 50))).result.results = (ev, ts, pj) :: rest →
      (getPersonEvents remote jparse absParse now pid2 lim et fr toOpt).1 =
        Except.ok ({ event := ev, timestamp := ts, properties := [] } ::
          rest.map (fun row => { event := row.1, timestamp := row.2.1, properties := safeParseJson (jparse row.2.2) }))) := by
  have hA : safeParseJson (jparse pj) = [] := by
    rcases hj : jparse pj with _ | v
    · rfl
    · rcases v with _ | b | q | s0 | es | fs
      · rfl
      · rfl
      · rfl
      · rfl
      · rfl
      · exact absurd hj (h fs)
  refine ⟨hA, ?_, ?_, ?_⟩
  · intro remote email pid rest hok hrows
    simp [getPersonByEmail, executeQuery, hok, hrows, hA]
  · intro remote absParse now en lim fr toOpt tsC pid rest hcl hok hrows
    simp [getPersonsByEvent, executeQuery, hcl, hok, hrows, hA]
  · intro remote absParse now pid2 lim et fr toOpt tsC ev ts rest hcl hok hrows
    simp [getPersonEvents, executeQuery, hcl, hok, hrows, hA]

/-- Witness for C3: the host parse yields a JSON array (a non-object), at
concrete replies for all three lookups. -/
theorem c3_malformed_json_degrades_witness :
    (∀ fields, (fun _ => some (JsonVal.arr [])) (("[]").data) ≠ some (JsonVal.obj fields)) ∧
    safeParseJson ((fun _ => some (JsonVal.arr [])) (("[]").data)) = [] ∧
    (getPersonByEmail (fun _ => cannedReply (Str × Str) 200 [((("u1").data), (("[]").data))])
      (fun _ => some (JsonVal.arr [])) (("a@b.c").data)).1 =
      Except.ok (some { id := ("u1").data, distinctIds := [], properties := [] }) := by
  have hne : ∀ fields, (fun _ => some (JsonVal.arr [])) (("[]").data) ≠
      some (JsonVal.obj fields) := by
    intro fields hcontra
    exact JsonVal.noConfusion (Option.some.inj hcontra)
  have hmain := c3_malformed_json_degrades (fun _ => some (JsonVal.arr [])) (("[]").data) hne
  refine ⟨hne, hmain.1, ?_⟩
  exact hmain.2.1 (fun _ => cannedReply (Str × Str) 200 [((("u1").data), (("[]").data))])
    (("a@b.c").data) (("u1").data) [] (by decide) rfl

/-- C7: `getPersonWithEvents` on a zero-row email lookup returns absent
having issued only the person query; on a found person it runs the events
lookup strictly afterwards with that person's id, and its trace is the
person query followed by the events lookup's trace. -/
theorem c7_compose_short_circuit (remoteP : Str → HttpReply (Str × Str))
    (remoteE : Str → HttpReply (Str × Str × Str)) (jparse : Str → Option JsonVal)
    (absParse : Str → Option Int) (now : Int) (email : Str) (eventsLimit : Option Int)
    (eventType fromOpt toOpt : Option Str) :
    (fetchOkStatus (remoteP (personByEmailQuery email)).status = true →
      (remoteP (personByEmailQuery email)).result.results = [] →
      getPersonWithEvents remoteP remoteE jparse absParse now email eventsLimit eventType
        fromOpt toOpt = (Except.ok none, [personByEmailQuery email])) ∧
    (∀ (pid pj : Str) (rest : List (Str × Str)),
      fetchOkStatus (remoteP (personByEmailQuery email)).status = true →
      (remoteP (personByEmailQuery email)).result.results = (pid, pj) :: rest →
      getPersonWithEvents remoteP remoteE jparse absParse now email eventsLimit eventType
        fromOpt toOpt =
        (Except.map
          (fun evs => some { person := { id := pid, distinctIds := [], properties := safeParseJson (jparse pj) }, events := evs })
          (getPersonEvents remoteE jparse absParse now pid eventsLimit eventType
            fromOpt toOpt).1,
         personByEmailQuery email ::
          (getPersonEvents remoteE jparse absParse now pid eventsLimit eventType
            fromOpt toOpt).2)) := by
  constructor
  · intro hok hrows
    simp [getPersonWithEvents, getPersonByEmail, executeQuery, hok, hrows]
  · intro pid pj rest hok hrows
    rcases he : getPersonEvents remoteE jparse absParse now pid eventsLimit eventType
        fromOpt toOpt with ⟨er, etr⟩
    rcases er with e | evs <;>
      simp [getPersonWithEvents, getPersonByEmail, executeQuery, hok, hrows, he, Except.map]

/-- Witness for C7: a remote returning zero rows, and one returning a
single person row. -/
theorem c7_compose_short_circuit_witness :
    getPersonWithEvents (fun _ => cannedReply (Str × Str) 200 [])
      (fun _ => cannedReply (Str × Str × Str) 200 []) (fun _ => none) (fun _ => none) 0
      (("a@b.c").data) none none none none =
      (Except.ok none, [personByEmailQuery (("a@b.c").data)]) ∧
    getPersonWithEvents (fun _ => cannedReply (Str × Str) 200 [((("u1").data), (("{}").data))])
      (fun _ => cannedReply (Str × Str × Str) 200 []) (fun _ => none) (fun _ => none) 0
      (("a@b.c").data) none none none none =
      (Except.map
        (fun evs => some { person := { id := ("u1").data, distinctIds := [], properties := safeParseJson ((fun _ => none) (("{}").data)) }, events := evs })
        (getPersonEvents (fun _ => cannedReply (Str × Str × Str) 200 []) (fun _ => none)
          (fun _ => none) 0 (("u1").data) none none none none).1,
       personByEmailQuery (("a@b.c").data) ::
        (getPersonEvents (fun _ => cannedReply (Str × Str × Str) 200 []) (fun _ => none)
          (fun _ => none) 0 (("u1").data) none none none none).2) :=
  ⟨(c7_compose_short_circuit (fun _ => cannedReply (Str × Str) 200 [])
      (fun _ => cannedReply (Str × Str × Str) 200 []) (fun _ => none) (fun _ => none) 0
      (("a@b.c").data) none none none none).1 (by decide) rfl,
   (c7_compose_short_circuit (fun _ => cannedReply (Str × Str) 200 [((("u1").data), (("{}").data))])
      (fun _ => cannedReply (Str × Str × Str) 200 []) (fun _ => none) (fun _ => none) 0
      (("a@b.c").data) none none none none).2 (("u1").data) (("{}").data) [] (by decide) rfl⟩

/-- C8: with a successful query response, `getPersonByEmail` returns
absent exactly when there are zero result rows, and a single row yields a
`Person` with that row's id and parsed properties and an empty
`distinctIds`. -/
theorem c8_person_by_email_rows (remote : Str → HttpReply (Str × Str))
    (jparse : Str → Option JsonVal) (email : Str)
    (hok : fetchOkStatus (remote (personByEmailQuery email)).status = true) :
    ((getPersonByEmail remote jparse email).1 = Except.ok none ↔
      (remote (personByEmailQuery email)).result.results = []) ∧
    (∀ pid pj : Str, (remote (personByEmailQuery email)).result.results = [(pid, pj)] →
      (getPersonByEmail remote jparse email).1 =
        Except.ok (some { id := pid, distinctIds := [], properties := safeParseJson (jparse pj) })) := by
  constructor
  · constructor
    · intro hres
      rcases hrows : (remote (personByEmailQuery email)).result.results with _ | ⟨⟨pid, pj⟩, rest⟩
      · rfl
      · simp [getPersonByEmail, executeQuery, hok, hrows] at hres
    · intro hres
      simp [getPersonByEmail, executeQuery, hok, hres]
  · intro pid pj hrows
    simp [getPersonByEmail, executeQuery, hok, hrows]

/-- Witness for C8: a zero-row reply and a one-row reply. -/
theorem c8_person_by_email_rows_witness :
    ((getPersonByEmail (fun _ => cannedReply (Str × Str) 200 []) (fun _ => none)
      (("a@b.c").data)).1 = Except.ok none ↔
      ((fun _ => cannedReply (Str × Str) 200 []) (personByEmailQuery
        (("a@b.c").data))).result.results = []) ∧
    (getPersonByEmail (fun _ => cannedReply (Str × Str) 200 [((("u1").data), (("{}").data))])
      (fun _ => none) (("a@b.c").data)).1 =
      Except.ok (some { id := ("u1").data, distinctIds := [], properties := safeParseJson ((fun _ => none) (("{}").data)) }) :=
  ⟨(c8_person_by_email_rows (fun _ => cannedReply (Str × Str) 200 []) (fun _ => none)
      (("a@b.c").data) (by decide)).1,
   (c8_person_by_email_rows (fun _ => cannedReply (Str × Str) 200 [((("u1").data), (("{}").data))])
      (fun _ => none) (("a@b.c").data) (by decide)).2 (("u1").data) (("{}").data) rfl⟩

/-- C9: a non-success HTTP status makes each of the four operations fail
with the single API error message carrying the status code and the raw
body text, after exactly one (never retried) request; a success status
never produces this error. -/
theorem c9_api_error_propagation :
    (∀ (ρ : Type) (remote : Str → HttpReply ρ) (q : Str),
      (fetchOkStatus (remote q).status = false →
        executeQuery remote q =
          (Except.error (apiErrorMsg (remote q).status (remote q).bodyText), [q])) ∧
      (fetchOkStatus (remote q).status = true →
        executeQuery remote q = (Except.ok (remote q).result, [q]))) ∧
    (∀ (remote : Str → HttpReply (Str × Str)) (jparse : Str → Option JsonVal) (email : Str),
      fetchOkStatus (remote (personByEmailQuery email)).status = false →
      getPersonByEmail remote jparse email =
        (Except.error (apiErrorMsg (remote (personByEmailQuery email)).status
          (remote (personByEmailQuery email)).bodyText), [personByEmailQuery email])) ∧
    (∀ (remote : Str → HttpReply (Str × Str)) (jparse : Str → Option JsonVal)
      (absParse : Str → Option Int) (now : Int) (en : Str) (lim : Option Int)
      (fr toOpt : Option Str) (tsC : Str),
      buildTimestampClause absParse now fr toOpt = some tsC →
      fetchOkStatus (remote (personsByEventQuery en tsC (lim.getD 10))).status = false →
      getPersonsByEvent remote jparse absParse now en lim fr toOpt =
        (Except.error (apiErrorMsg (remote (personsByEventQuery en tsC (lim.getD 10))).status
          (remote (personsByEventQuery en tsC (lim.getD 10))).bodyText),
         [personsByEventQuery en tsC (lim.getD 10)])) ∧
    (∀ (remote : Str → HttpReply (Str × Str × Str)) (jparse : Str → Option JsonVal)
      (absParse : Str → Option Int) (now : Int) (pid : Str) (lim : Option Int)
      (et fr toOpt : Option Str) (tsC : Str),
      buildTimestampClause absParse now (some (fr.getD (("30d").data))) toOpt = some tsC →
      fetchOkStatus (remote (personEventsQueryText pid (eventTypeClause et) tsC
        (lim.getD 50))).status = false →
      getPersonEvents remote jparse absParse now pid lim et fr toOpt =
        (Except.error (apiErrorMsg
          (remote (personEventsQueryText pid (eventTypeClause et) tsC (lim.getD 50))).status
          (remote (personEventsQueryText pid (eventTypeClause et) tsC (lim.getD 50))).bodyText),
         [personEventsQueryText pid (eventTypeClause et) tsC (lim.getD 50)])) ∧
    (∀ (remoteP : Str → HttpReply (Str × Str)) (remoteE : Str → HttpReply (Str × Str × Str))
      (jparse : Str → Option JsonVal) (absParse : Str → Option Int) (now : Int)
      (email : Str) (eventsLimit : Option Int) (eventType fromOpt toOpt : Option Str),
      fetchOkStatus (remoteP (personByEmailQuery email)).status = false →
      getPersonWithEvents remoteP remoteE jparse absParse now email eventsLimit eventType
        fromOpt toOpt =
        (Except.error (apiErrorMsg (remoteP (personByEmailQuery email)).status
          (remoteP (personByEmailQuery email)).bodyText), [personByEmailQuery email])) := by
  refine ⟨?_, ?_, ?_, ?_, ?_⟩
  · intro ρ remote q
    constructor
    · intro hbad
      simp [executeQuery, hbad]
    · intro hok
      simp [executeQuery, hok]
  · intro remote jparse email hbad
    simp [getPersonByEmail, executeQuery, hbad]
  · intro remote jparse absParse now en lim fr toOpt tsC hcl hbad
    simp [getPersonsByEvent, executeQuery, hcl, hbad]
  · intro remote jparse absParse now pid lim et fr toOpt tsC hcl hbad
    simp [getPersonEvents, executeQuery, hcl, hbad]
  · intro remoteP remoteE jparse absParse now email eventsLimit eventType fromOpt toOpt hbad
    simp [getPersonWithEvents, getPersonByEmail, executeQuery, hbad]

/-- Witness for C9 at a remote that always answers 500. -/
theorem c9_api_error_propagation_witness :
    executeQuery (fun _ => cannedReply (Str × Str) 500 []) (("q").data) =
      (Except.error (apiErrorMsg 500 (("oops").data)), [("q").data]) ∧
    getPersonByEmail (fun _ => cannedReply (Str × Str) 500 []) (fun _ => none)
      (("a@b.c").data) =
      (Except.error (apiErrorMsg 500 (("oops").data)),
       [personByEmailQuery (("a@b.c").data)]) ∧
    getPersonsByEvent (fun _ => cannedReply (Str × Str) 500 []) (fun _ => none)
      (fun _ => none) 0 (("ev").data) none none none =
      (Except.error (apiErrorMsg 500 (("oops").data)),
       [personsByEventQuery (("ev").data) [] 10]) ∧
    getPersonEvents (fun _ => cannedReply (Str × Str × Str) 500 []) (fun _ => none)
      (fun _ => none) 0 (("u1").data) none none (some []) none =
      (Except.error (apiErrorMsg 500 (("oops").data)),
       [personEventsQueryText (("u1").data) [] [] 50]) ∧
    getPersonWithEvents (fun _ => cannedReply (Str × Str) 500 [])
      (fun _ => cannedReply (Str × Str × Str) 500 []) (fun _ => none) (fun _ => none) 0
      (("a@b.c").data) none none none none =
      (Except.error (apiErrorMsg 500 (("oops").data)),
       [personByEmailQuery (("a@b.c").data)]) := by
  have h := c9_api_error_propagation
  refine ⟨(h.1 (Str × Str) (fun _ => cannedReply (Str × Str) 500 []) (("q").data)).1 (by decide),
    h.2.1 (fun _ => cannedReply (Str × Str) 500 []) (fun _ => none) (("a@b.c").data) (by decide),
    ?_, ?_, h.2.2.2.2 (fun _ => cannedReply (Str × Str) 500 [])
      (fun _ => cannedReply (Str × Str × Str) 500 []) (fun _ => none) (fun _ => none) 0
      (("a@b.c").data) none none none none (by decide)⟩
  · exact h.2.2.1 (fun _ => cannedReply (Str × Str) 500 []) (fun _ => none) (fun _ => none) 0
      (("ev").data) none none none [] rfl (by decide)
  · exact h.2.2.2.1 (fun _ => cannedReply (Str × Str × Str) 500 []) (fun _ => none)
      (fun _ => none) 0 (("u1").data) none none (some []) none [] rfl (by decide)

/-- Helper: resolving the default expression "30d" subtracts exactly 30
days (in milliseconds) from `now`, provided the result is in the clipped
time range. -/
theorem parse30d (absParse : Str → Option Int) (now : Int)
    (hclip : (now - 2592000000).natAbs ≤ 8640000000000000) :
    parseRelativeDate absParse now (("30d").data) = some (now - 2592000000) := by
  have hm : matchRelative (("30d").data) = some (30, 'd') := by decide
  unfold parseRelativeDate
  rw [hm]
  have e : now - ((30 : Nat) : Int) * 86400000 = now - 2592000000 := by push_cast; ring
  simp [timeClip, e, hclip]

/-- Helper: the trace of `getPersonEvents` when the timestamp clause
builds: exactly the one events query. -/
theorem getPersonEvents_trace (remote : Str → HttpReply (Str × Str × Str))
    (jparse : Str → Option JsonVal) (absParse : Str → Option Int) (now : Int)
    (pid : Str) (lim : Option Int) (et fromOpt toOpt : Option Str) (tsC : Str)
    (hcl : buildTimestampClause absParse now (some (fromOpt.getD (("30d").data))) toOpt =
      some tsC) :
    (getPersonEvents remote jparse absParse now pid lim et fromOpt toOpt).2 =
      [personEventsQueryText pid (eventTypeClause et) tsC (lim.getD 50)] := by
  have hexec : (executeQuery remote
      (personEventsQueryText pid (eventTypeClause et) tsC (lim.getD 50))).2 =
      [personEventsQueryText pid (eventTypeClause et) tsC (lim.getD 50)] := by
    simp only [executeQuery]
    split <;> rfl
  rcases hstep : executeQuery remote
      (personEventsQueryText pid (eventTypeClause et) tsC (lim.getD 50)) with ⟨er, tr⟩
  rw [hstep] at hexec
  rcases er with e | r <;> simp [getPersonEvents, hcl, hstep, hexec]

/-- Helper: no request is issued when the timestamp clause construction
throws. -/
theorem getPersonEvents_trace_none (remote : Str → HttpReply (Str × Str × Str))
    (jparse : Str → Option JsonVal) (absParse : Str → Option Int) (now : Int)
    (pid : Str) (lim : Option Int) (et fromOpt toOpt : Option Str)
    (hcl : buildTimestampClause absParse now (some (fromOpt.getD (("30d").data))) toOpt =
      none) :
    (getPersonEvents remote jparse absParse now pid lim et fromOpt toOpt).2 = [] := by
  simp [getPersonEvents, hcl]

/-- Helper: the trace of `getPersonsByEvent` when the timestamp clause
builds: exactly the one events query. -/
theorem getPersonsByEvent_trace (remote : Str → HttpReply (Str × Str))
    (jparse : Str → Option JsonVal) (absParse : Str → Option Int) (now : Int)
    (en : Str) (lim : Option Int) (fromOpt toOpt : Option Str) (tsC : Str)
    (hcl : buildTimestampClause absParse now fromOpt toOpt = some tsC) :
    (getPersonsByEvent remote jparse absParse now en lim fromOpt toOpt).2 =
      [personsByEventQuery en tsC (lim.getD 10)] := by
  have hexec : (executeQuery remote (personsByEventQuery en tsC (lim.getD 10))).2 =
      [personsByEventQuery en tsC (lim.getD 10)] := by
    simp only [executeQuery]
    split <;> rfl
  rcases hstep : executeQuery remote (personsByEventQuery en tsC (lim.getD 10)) with ⟨er, tr⟩
  rw [hstep] at hexec
  rcases er with e | r <;> simp [getPersonsByEvent, hcl, hstep, hexec]

set_option maxRecDepth 16384

/-- Helper: merging the clause separator into the lower-bound literal. -/
theorem litMergeGE (rest : Str) :
    (" AND ").data ++ ((("timestamp >= '").data ++ rest)) =
      (" AND timestamp >= '").data ++ rest := by
  rw [← List.append_assoc]
  rfl

/-- Helper: the eventTypeClause of a set (truthy) event type. -/
theorem eventTypeClause_set (et : Str) (het : et ≠ []) :
    eventTypeClause (some et) =
      (" AND event = '").data ++ escapeHogQLString et ++ ("'").data := by
  simp [eventTypeClause, het]

/-- C6: with `from` absent, every query `getPersonEvents` issues carries
the lower bound `timestamp >= now - 30 days`; the email lookup's query has
no timestamp clause at all, and `getPersonsByEvent` with absent bounds
issues its query with an empty timestamp clause (the 30-day default exists
only in `getPersonEvents`); and a set `eventType` puts the escaped
equality filter on `event` into the query. -/
theorem c6_default_lower_bound (absParse : Str → Option Int) (now : Int) (pid et : Str)
    (lim : Option Int) (toOpt : Option Str) (remote : Str → HttpReply (Str × Str × Str))
    (jparse : Str → Option JsonVal)
    (hclip : (now - 2592000000).natAbs ≤ 8640000000000000) (het : et ≠ []) :
    (∀ q : Str,
      q ∈ (getPersonEvents remote jparse absParse now pid lim (some et) none toOpt).2 →
      (∃ p s, q = p ++ ((" AND timestamp >= '").data
        ++ hogFmtStr (now - 2592000000) ++ ("'").data) ++ s) ∧
      (∃ p s, q = p ++ ((" AND event = '").data ++ escapeHogQLString et ++ ("'").data) ++ s)) ∧
    (∀ email : Str, personByEmailQuery email =
      ("\n      SELECT id, properties\n      FROM persons\n      WHERE properties.email = '").data
        ++ escapeHogQLString email ++ ("'\n      LIMIT 1\n    ").data) ∧
    (∀ (en : Str) (lim2 : Option Int) (remote2 : Str → HttpReply (Str × Str)),
      (getPersonsByEvent remote2 jparse absParse now en lim2 none none).2 =
        [personsByEventQuery en [] (lim2.getD 10)]) := by
  have hfmt : formatDateForHogQL (parseRelativeDate absParse now (("30d").data)) =
      some (hogFmtStr (now - 2592000000)) := by
    rw [parse30d absParse now hclip]
    rfl
  have h30ne : ("30d").data ≠ [] := by decide
  have hetc := eventTypeClause_set et het
  refine ⟨?_, fun email => rfl, ?_⟩
  · intro q hq
    rcases toOpt with _ | s
    · have hcl : buildTimestampClause absParse now (some (("30d").data)) none =
          some ((" AND ").data ++ (("timestamp >= '").data
            ++ hogFmtStr (now - 2592000000) ++ ("'").data)) := by
        simp [buildTimestampClause, hfmt, joinSep, h30ne]
      rw [getPersonEvents_trace remote jparse absParse now pid lim (some et) none none _
        hcl] at hq
      rcases List.mem_singleton.mp hq with rfl
      constructor
      · refine ⟨("\n      SELECT event, timestamp, properties\n      FROM events\n      WHERE person_id = '").data
          ++ escapeHogQLString pid ++ ("'").data ++ eventTypeClause (some et),
          ("\n      ORDER BY timestamp DESC\n      LIMIT ").data
          ++ (toString (lim.getD 50)).data ++ ("\n    ").data, ?_⟩
        simp [personEventsQueryText, litMergeGE, List.append_assoc]
      · refine ⟨("\n      SELECT event, timestamp, properties\n      FROM events\n      WHERE person_id = '").data
          ++ escapeHogQLString pid ++ ("'").data,
          ((" AND ").data ++ (("timestamp >= '").data
            ++ hogFmtStr (now - 2592000000) ++ ("'").data))
          ++ ("\n      ORDER BY timestamp DESC\n      LIMIT ").data
          ++ (toString (lim.getD 50)).data ++ ("\n    ").data, ?_⟩
        simp [personEventsQueryText, hetc, List.append_assoc]
    · by_cases hs : s = []
      · subst hs
        have hcl : buildTimestampClause absParse now (some (("30d").data)) (some []) =
            some ((" AND ").data ++ (("timestamp >= '").data
              ++ hogFmtStr (now - 2592000000) ++ ("'").data)) := by
          simp [buildTimestampClause, hfmt, joinSep, h30ne]
        rw [getPersonEvents_trace remote jparse absParse now pid lim (some et) none
          (some []) _ hcl] at hq
        rcases List.mem_singleton.mp hq with rfl
        constructor
        · refine ⟨("\n      SELECT event, timestamp, properties\n      FROM events\n      WHERE person_id = '").data
            ++ escapeHogQLString pid ++ ("'").data ++ eventTypeClause (some et),
            ("\n      ORDER BY timestamp DESC\n      LIMIT ").data
            ++ (toString (lim.getD 50)).data ++ ("\n    ").data, ?_⟩
          simp [personEventsQueryText, litMergeGE, List.append_assoc]
        · refine ⟨("\n      SELECT event, timestamp, properties\n      FROM events\n      WHERE person_id = '").data
            ++ escapeHogQLString pid ++ ("'").data,
            ((" AND ").data ++ (("timestamp >= '").data
              ++ hogFmtStr (now - 2592000000) ++ ("'").data))
            ++ ("\n      ORDER BY timestamp DESC\n      LIMIT ").data
            ++ (toString (lim.getD 50)).data ++ ("\n    ").data, ?_⟩
          simp [personEventsQueryText, hetc, List.append_assoc]
      · rcases hf2 : formatDateForHogQL (parseRelativeDate absParse now s) with _ | g
        · have hcl : buildTimestampClause absParse now (some (("30d").data)) (some s) =
              none := by
            simp [buildTimestampClause, hfmt, hf2, h30ne, hs]
          rw [getPersonEvents_trace_none remote jparse absParse now pid lim (some et) none
            (some s) hcl] at hq
          simp at hq
        · have hcl : buildTimestampClause absParse now (some (("30d").data)) (some s) =
              some ((" AND ").data ++ (("timestamp >= '").data
                ++ hogFmtStr (now - 2592000000) ++ ("'").data
                ++ (" AND ").data ++ (("timestamp <= '").data ++ g ++ ("'").data))) := by
            simp [buildTimestampClause, hfmt, hf2, h30ne, hs, joinSep, List.append_assoc]
          rw [getPersonEvents_trace remote jparse absParse now pid lim (some et) none
            (some s) _ hcl] at hq
          rcases List.mem_singleton.mp hq with rfl
          constructor
          · refine ⟨("\n      SELECT event, timestamp, properties\n      FROM events\n      WHERE person_id = '").data
              ++ escapeHogQLString pid ++ ("'").data ++ eventTypeClause (some et),
              (" AND ").data ++ (("timestamp <= '").data ++ g ++ ("'").data)
              ++ ("\n      ORDER BY timestamp DESC\n      LIMIT ").data
              ++ (toString (lim.getD 50)).data ++ ("\n    ").data, ?_⟩
            simp [personEventsQueryText, litMergeGE, List.append_assoc]
          · refine ⟨("\n      SELECT event, timestamp, properties\n      FROM events\n      WHERE person_id = '").data
              ++ escapeHogQLString pid ++ ("'").data,
              ((" AND ").data ++ (("timestamp >= '").data
                ++ hogFmtStr (now - 2592000000) ++ ("'").data
                ++ (" AND ").data ++ (("timestamp <= '").data ++ g ++ ("'").data)))
              ++ ("\n      ORDER BY timestamp DESC\n      LIMIT ").data
              ++ (toString (lim.getD 50)).data ++ ("\n    ").data, ?_⟩
            simp [personEventsQueryText, hetc, List.append_assoc]
  · intro en lim2 remote2
    exact getPersonsByEvent_trace remote2 jparse absParse now en lim2 none none [] rfl

/-- Witness for C6 at a concrete clock value, person id and event type. -/
theorem c6_default_lower_bound_witness :
    ((1700000000000 - 2592000000 : Int).natAbs ≤ 8640000000000000) ∧
    (("pv").data ≠ ([] : Str)) ∧
    (∀ q : Str, q ∈ (getPersonEvents (fun _ => cannedReply (Str × Str × Str) 200 [])
        (fun _ => none) (fun _ => none) 1700000000000 (("u1").data) none
        (some (("pv").data)) none none).2 →
      (∃ p s, q = p ++ ((" AND timestamp >= '").data
        ++ hogFmtStr (1700000000000 - 2592000000) ++ ("'").data) ++ s) ∧
      (∃ p s, q = p ++ ((" AND event = '").data ++ escapeHogQLString (("pv").data)
        ++ ("'").data) ++ s)) :=
  ⟨by decide, by decide,
   (c6_default_lower_bound (fun _ => none) 1700000000000 (("u1").data) (("pv").data) none
     none (fun _ => cannedReply (Str × Str × Str) 200 []) (fun _ => none)
     (by decide) (by decide)).1⟩

/-- C10: an explicit empty-string `from` is not replaced by the "30d"
default (nullish coalescing only replaces absent/null) and is then dropped
by the truthiness check, so the emitted query has no lower timestamp bound
at all; omitting `from` instead emits the 30-days-ago bound. -/
theorem c10_empty_from_no_lower_bound (absParse : Str → Option Int) (now : Int) (pid : Str)
    (lim : Option Int) (et : Option Str) (remote : Str → HttpReply (Str × Str × Str))
    (jparse : Str → Option JsonVal)
    (hclip : (now - 2592000000).natAbs ≤ 8640000000000000) :
    (∀ toOpt : Option Str, buildTimestampClause absParse now (some []) toOpt =
      buildTimestampClause absParse now none toOpt) ∧
    ((getPersonEvents remote jparse absParse now pid lim et (some []) none).2 =
      [personEventsQueryText pid (eventTypeClause et) [] (lim.getD 50)]) ∧
    ((getPersonEvents remote jparse absParse now pid lim et none none).2 =
      [personEventsQueryText pid (eventTypeClause et)
        ((" AND timestamp >= '").data ++ hogFmtStr (now - 2592000000) ++ ("'").data)
        (lim.getD 50)]) := by
  have hfmt : formatDateForHogQL (parseRelativeDate absParse now (("30d").data)) =
      some (hogFmtStr (now - 2592000000)) := by
    rw [parse30d absParse now hclip]
    rfl
  have h30ne : ("30d").data ≠ [] := by decide
  refine ⟨fun toOpt => rfl, ?_, ?_⟩
  · exact getPersonEvents_trace remote jparse absParse now pid lim et (some []) none [] rfl
  · have hcl : buildTimestampClause absParse now (some (("30d").data)) none =
        some ((" AND timestamp >= '").data ++ hogFmtStr (now - 2592000000) ++ ("'").data) := by
      simp [buildTimestampClause, hfmt, joinSep, h30ne, litMergeGE, List.append_assoc]
    exact getPersonEvents_trace remote jparse absParse now pid lim et none none _ hcl

/-- Witness for C10 at a concrete clock value. -/
theorem c10_empty_from_no_lower_bound_witness :
    ((1700000000000 - 2592000000 : Int).natAbs ≤ 8640000000000000) ∧
    ((getPersonEvents (fun _ => cannedReply (Str × Str × Str) 200 []) (fun _ => none)
        (fun _ => none) 1700000000000 (("u1").data) none none (some []) none).2 =
      [personEventsQueryText (("u1").data) (eventTypeClause none) []
        ((none : Option Int).getD 50)]) ∧
    ((getPersonEvents (fun _ => cannedReply (Str × Str × Str) 200 []) (fun _ => none)
        (fun _ => none) 1700000000000 (("u1").data) none none none none).2 =
      [personEventsQueryText (("u1").data) (eventTypeClause none)
        ((" AND timestamp >= '").data ++ hogFmtStr (1700000000000 - 2592000000) ++ ("'").data)
        ((none : Option Int).getD 50)]) :=
  ⟨by decide,
   (c10_empty_from_no_lower_bound (fun _ => none) 1700000000000 (("u1").data) none none
     (fun _ => cannedReply (Str × Str × Str) 200 []) (fun _ => none) (by decide)).2.1,
   (c10_empty_from_no_lower_bound (fun _ => none) 1700000000000 (("u1").data) none none
     (fun _ => cannedReply (Str × Str × Str) 200 []) (fun _ => none) (by decide)).2.2⟩
